import Mathlib

/-!
Verification of the native build orchestrator in
`src/edgelet/hsm-sys/build.rs` (the cargo build script of the `hsm-sys`
crate).  The script is compiled either with `cfg(windows)` or `cfg(unix)`
and with or without `cfg(debug_assertions)`; we model those compile-time
switches as explicit parameters (`HostOS`, a `dbg : Bool` flag).  The
process environment, the filesystem facts and the outcomes of external
commands that the script consults are gathered in `Env` and `World`
records, and the `cmake::Config` builder is modelled by the `Config`
structure whose `define`/`cflag`/`cxxflag`/`build_arg` methods append to
lists exactly as the cmake crate pushes onto vectors.  Rust panics are
modelled with `Except String` (for the pure configuration functions) or
with an `Option String` halt component (for the sequential run trace).
-/

namespace HsmSys

/-- Compile-time host discriminant: `cfg(windows)` vs `cfg(unix)`. -/
inductive HostOS where
  | windows
  | unix
deriving DecidableEq, Repr

/-- The slice of the process environment read by `build.rs`.
`Option String` fields model `env::var` results (`none` = variable
absent, i.e. `Err`); `Bool` fields model the places where the script
only tests presence via `is_ok()`. -/
structure Env where
  /-- `USE_EMULATOR` -/
  use_emulator : Option String := none
  /-- `PROFILE` -/
  profile : Option String := none
  /-- `TARGET` -/
  target : Option String := none
  /-- whether `RUN_VALGRIND` is set (the script only calls `is_ok()`) -/
  run_valgrind_set : Bool := false
  /-- `SYSROOT` -/
  sysroot : Option String := none
  /-- `USE_ENCLAVE` (the TEE selection string) -/
  use_enclave : Option String := none
  /-- whether `USE_SIMULATION` is set (the script only calls `is_ok()`) -/
  use_simulation : Bool := false
  /-- whether `FORCE_NO_UNITTEST` is set -/
  force_no_unittest : Bool := false
  /-- `OPENSSL_ROOT_DIR` -/
  openssl_root_dir : Option String := none
  /-- `SGXSDKInstallPath` -/
  sgx_sdk_path : Option String := none
deriving DecidableEq, Repr

/-- Shallow model of `cmake::Config`: `define`, `cflag`, `cxxflag` and
`build_arg` push onto vectors in declaration order (the cmake crate
performs no key de-duplication), `profile` records the build profile. -/
structure Config where
  srcDir : String
  defines : List (String × String) := []
  cflags : List String := []
  cxxflags : List String := []
  buildArgs : List String := []
  profileName : Option String := none
deriving DecidableEq, Repr

def Config.new (d : String) : Config := { srcDir := d }

def Config.define (c : Config) (k v : String) : Config :=
  { c with defines := c.defines ++ [(k, v)] }

def Config.cflag (c : Config) (f : String) : Config :=
  { c with cflags := c.cflags ++ [f] }

def Config.cxxflag (c : Config) (f : String) : Config :=
  { c with cxxflags := c.cxxflags ++ [f] }

def Config.buildArg (c : Config) (a : String) : Config :=
  { c with buildArgs := c.buildArgs ++ [a] }

def Config.withProfile (c : Config) (p : String) : Config :=
  { c with profileName := some p }

/-- Model of Rust's `str::to_lowercase` (per-character lowering; all
comparisons in build.rs are against ASCII literals).  Defined by a
structural map over the character list so that it evaluates on concrete
inputs. -/
def lowerString (s : String) : String := String.mk (s.data.map Char.toLower)

/-- Model of Rust's `str::starts_with` (prefix test on the character
sequence), defined structurally so that it evaluates on concrete
inputs. -/
def startsWithStr (s p : String) : Bool := p.data.isPrefixOf s.data

/-- `const SSL_OPTION: &str = "use_openssl";` -/
def SSL_OPTION : String := "use_openssl"

/-- `const USE_EMULATOR: &str = "use_emulator";` -/
def USE_EMULATOR : String := "use_emulator"

/-- `SetPlatformDefines::set_platform_defines` (build.rs lines 26-68),
with the `cfg(windows)` / `cfg(unix)` branches dispatched on `os`.
The windows branch panics (`.unwrap()`) when both `USE_EMULATOR` and
`PROFILE` are absent; the unix branch panics when `TARGET` is absent. -/
def set_platform_defines (os : HostOS) (env : Env) (c : Config) :
    Except String Config :=
  match os with
  | .windows =>
    let withFlags :=
      ((((c.cflag "/DWIN32").cxxflag "/DWIN32").cflag
        "/D_WINDOWS").cxxflag "/D_WINDOWS").buildArg "/m"
    match env.use_emulator with
    | some v =>
      Except.ok ((withFlags.define USE_EMULATOR v).define "use_cppunittest" "OFF")
    | none =>
      match env.profile with
      | some p =>
        let ue := if lowerString p = "release" then "OFF" else "ON"
        Except.ok ((withFlags.define USE_EMULATOR ue).define "use_cppunittest" "OFF")
      | none => Except.error "called Result::unwrap on an Err value"
  | .unix =>
    match env.target with
    | none => Except.error "called Result::unwrap on an Err value"
    | some t =>
      let rv := if startsWithStr t "x86_64" && env.run_valgrind_set then "ON" else "OFF"
      match env.sysroot with
      | some s =>
        Except.ok (((c.define "run_valgrind" rv).define "CMAKE_SYSROOT" s).define
          USE_EMULATOR "OFF")
      | none =>
        Except.ok ((c.define "run_valgrind" rv).define USE_EMULATOR "OFF")

/-- `SetPlatformDefines::set_build_shared` (build.rs lines 70-80):
`cfg(debug_assertions)` selects `BUILD_SHARED=OFF`, otherwise `ON`. -/
def set_build_shared (dbg : Bool) (c : Config) : Config :=
  if dbg then c.define "BUILD_SHARED" "OFF" else c.define "BUILD_SHARED" "ON"

/-- `SetEnclaveDefines::set_enclave_options` (build.rs lines 83-131).
`ta` is the result of `fs::canonicalize("azure-iot-hsm-c/deps/optee/ta_dev_kit")`
(`none` models the `Err` case, whose `.unwrap()` panics). -/
def set_enclave_options (os : HostOS) (env : Env) (ta : Option String)
    (c : Config) : Except String Config :=
  match env.use_enclave with
  | none => Except.ok c
  | some raw =>
    let tee := lowerString raw
    match os with
    | .windows =>
      if tee = "intel sgx" ∨ tee = "sgx" then
        let c1 := (c.define "OE_TEE" "SGX").define "use_enclave" "ON"
        if env.use_simulation then
          Except.ok (c1.define "OE_USE_SIMULATION" "ON")
        else
          Except.ok c1
      else
        Except.error
          "Building the HSM enclave on Windows is currently only supported for Intel SGX"
    | .unix =>
      if tee = "arm trustzone" ∨ tee = "tz" then
        if env.use_simulation then
          Except.error "Simulation builds are not yet supported for ARM TrustZone on Linux"
        else
          match ta with
          | none => Except.error "called Result::unwrap on an Err value"
          | some p =>
            Except.ok (((c.define "OE_TEE" "TZ").define "TA_DEV_KIT_DIR" p).define
              "use_enclave" "ON")
      else
        Except.error
          "Building the HSM enclave on Linux is currently only supported for ARM TrustZone"

/-- Repository paths fixed in `main` (build.rs lines 135-138). -/
def c_shared_repo : String := "azure-iot-hsm-c/deps/c-shared"

def utpm_repo : String := "azure-iot-hsm-c/deps/utpm"

def oe_repo : String := "azure-iot-hsm-c/deps/openenclave"

def oe_new_platforms : String := oe_repo ++ "/new_platforms"

def hsm_repo : String := "azure-iot-hsm-c"

/-- Facts about the filesystem and the outcomes of the external commands
`main` runs.  `fetchExitOk` records the exit status of
`git submodule update --init --recursive`; note that build.rs discards it
(`let _ = ... .status().expect(...)` panics only when the command cannot
be spawned, an `Ok` status with a non-zero exit code passes through). -/
structure World where
  /-- `Path::new("azure-iot-hsm-c/deps/c-shared/.git").exists()` -/
  cSharedGit : Bool := true
  /-- `Path::new("azure-iot-hsm-c/deps/utpm/.git").exists()` -/
  utpmGit : Bool := true
  /-- `Path::new("azure-iot-hsm-c/deps/openenclave/.git").exists()` -/
  oeGit : Bool := true
  /-- the `git submodule update` process could be spawned -/
  fetchSpawns : Bool := true
  /-- the `git submodule update` process exited with status zero
  (read by nothing in build.rs: the status value is discarded) -/
  fetchExitOk : Bool := true
  /-- `apt-get install` succeeded -/
  aptOk : Bool := true
  /-- `pip install pycrypto` succeeded -/
  pipOk : Bool := true
  /-- result of `fs::canonicalize("azure-iot-hsm-c/deps/optee/ta_dev_kit")` -/
  taDevKit : Option String := none
  /-- whether the cmake build of a given source directory succeeds -/
  buildOk : String → Bool := fun _ => true
  /-- whether `fs::copy` of the signed enclave image succeeds -/
  copyOk : Bool := true
  /-- the install directory returned by the `azure-iot-hsm-c` build
  (`iothsm.display()`) -/
  hsmOut : String := "out"

/-- Externally visible side-effecting steps of `main`, in the order they
are performed. -/
inductive Step where
  | fetch
  | aptInstall
  | pipInstall
  | build (repo : String)
  | copyEnclave
deriving DecidableEq, Repr

/-- A run so far: the steps performed, and `some msg` once the process
has panicked (no further step is performed after that). -/
abbrev Run := List Step × Option String

/-- Sequencing with early termination on panic. -/
def seq (r : Run) (f : List Step → Run) : Run :=
  match r.2 with
  | some _ => r
  | none => f r.1

/-- The submodule-update stage (build.rs lines 146-158): fetch is
invoked iff one of the required `.git` markers is missing; only a spawn
failure panics (`expect("submodule update failed")`), the exit status is
discarded. -/
def fetchStage (env : Env) (w : World) (tr : List Step) : Run :=
  if !w.cSharedGit || !w.utpmGit || (env.use_enclave.isSome && !w.oeGit) then
    let tr := tr ++ [Step.fetch]
    if w.fetchSpawns then (tr, none) else (tr, some "submodule update failed")
  else (tr, none)

/-- Running one cmake build: `.build()` panics when the external build
fails. -/
def stepBuild (w : World) (repo : String) (tr : List Step) : Run :=
  let tr := tr ++ [Step.build repo]
  if w.buildOk repo then (tr, none) else (tr, some "cmake build failed")

/-- Constructing a `Config` can itself panic (inside
`set_platform_defines` / `set_enclave_options`); this lifts that into the
run. -/
def configStage (e : Except String Config) (tr : List Step) : Run :=
  match e with
  | .ok _ => (tr, none)
  | .error m => (tr, some m)

/-- The six fixed defines shared by the dependency builds and the HSM
build (build.rs lines 163-169, 176-182, 236-242); `rut` is the
`run_unittests` value. -/
def depBaseConfig (repo rut : String) : Config :=
  ((((((Config.new repo).define SSL_OPTION "ON").define "CMAKE_BUILD_TYPE"
    "Release").define "run_unittests" rut).define "use_default_uuid"
    "ON").define "use_http" "OFF").define "skip_samples" "ON"

/-- The `Config` built for the shared-utilities dependency
(build.rs lines 163-173): fixed defines, then `set_platform_defines`,
then the driver re-defines `run_valgrind` to `OFF`, then
`.profile("Release")`. -/
def sharedUtilConfig (os : HostOS) (env : Env) : Except String Config :=
  match set_platform_defines os env (depBaseConfig c_shared_repo "OFF") with
  | .error m => .error m
  | .ok c => .ok ((c.define "run_valgrind" "OFF").withProfile "Release")

/-- The `Config` built for the micro-TPM dependency
(build.rs lines 176-186), identical to the shared-utilities one up to
the source directory. -/
def utpmConfig (os : HostOS) (env : Env) : Except String Config :=
  match set_platform_defines os env (depBaseConfig utpm_repo "OFF") with
  | .error m => .error m
  | .ok c => .ok ((c.define "run_valgrind" "OFF").withProfile "Release")

/-- The `Config` built for the Open Enclave SDK (build.rs lines
217-221): `set_enclave_options`, then `set_platform_defines`, then
`.profile("Release")`. -/
def oeConfig (os : HostOS) (env : Env) (ta : Option String) :
    Except String Config :=
  match set_enclave_options os env ta (Config.new oe_new_platforms) with
  | .error m => .error m
  | .ok c =>
    match set_platform_defines os env c with
    | .error m => .error m
    | .ok c2 => .ok (c2.withProfile "Release")

/-- The `Config` built for the HSM library itself (build.rs lines
229-247): fixed defines with `run_unittests` controlled by
`FORCE_NO_UNITTEST`, then `set_enclave_options`, `set_platform_defines`,
`set_build_shared`, `.profile("Release")`. -/
def hsmConfig (os : HostOS) (dbg : Bool) (env : Env) (ta : Option String) :
    Except String Config :=
  let rut := if env.force_no_unittest then "OFF" else "ON"
  match set_enclave_options os env ta (depBaseConfig hsm_repo rut) with
  | .error m => .error m
  | .ok c =>
    match set_platform_defines os env c with
    | .error m => .error m
    | .ok c2 => .ok ((set_build_shared dbg c2).withProfile "Release")

/-- The `if use_enclave` block of `main` (build.rs lines 188-222): on
unix the apt-get/pip prerequisites run first (each failing fatally),
then on either OS the Open Enclave SDK is configured and built. -/
def enclaveStage (os : HostOS) (env : Env) (w : World) (tr : List Step) :
    Run :=
  if env.use_enclave.isSome then
    match os with
    | .unix =>
      seq (let tr := tr ++ [Step.aptInstall]
           if w.aptOk then (tr, none) else (tr, some "apt-get install failed"))
        (fun tr =>
          seq (let tr := tr ++ [Step.pipInstall]
               if w.pipOk then (tr, none) else (tr, some "pip install pycrypto failed"))
            (fun tr =>
              seq (configStage (oeConfig os env w.taDevKit) tr)
                (fun tr => stepBuild w oe_new_platforms tr)))
    | .windows =>
      seq (configStage (oeConfig os env w.taDevKit) tr)
        (fun tr => stepBuild w oe_new_platforms tr)
  else (tr, none)

/-- One `cargo:` print directive of the link plan. -/
inductive Directive where
  | searchPath (p : String)
  | linkLib (l : String)
deriving DecidableEq, Repr

/-- Result of the link-plan emission section of `main`. -/
structure EmitResult where
  directives : List Directive
  copyAttempted : Bool
  panic : Option String
deriving DecidableEq, Repr

/-- The link-plan emission section of `main` (build.rs lines 254-307),
in source order: the three search paths under the HSM output directory
and the HSM library; under `cfg(debug_assertions)` the shared-utilities
and micro-TPM libraries; when an enclave is in use the OE host-runtime
libraries (plus `teec` on unix); then under `cfg(windows)` the OpenSSL
search path, the two SSL libraries, the SGX-SDK search path (both paths
obtained by `.unwrap()` on the environment variable, panicking when it
is absent) and, when an enclave is in use, the signed-enclave copy
(fatal on failure) followed by the three SGX simulation libraries;
under `cfg(unix)` the single `crypto` library. -/
def linkEmit (os : HostOS) (dbg : Bool) (env : Env) (w : World)
    (out : String) : EmitResult :=
  let ds : List Directive :=
    [Directive.searchPath out, Directive.searchPath (out ++ "/lib"),
     Directive.searchPath (out ++ "/lib64"), Directive.linkLib "iothsm"]
  let ds := ds ++
    (if dbg then [Directive.linkLib "aziotsharedutil", Directive.linkLib "utpm"]
     else [])
  let ds := ds ++
    (if env.use_enclave.isSome then
      [Directive.linkLib "oesocket_host", Directive.linkLib "oestdio_host",
       Directive.linkLib "oehost"] ++
      (if os = .unix then [Directive.linkLib "teec"] else [])
     else [])
  match os with
  | .unix =>
    { directives := ds ++ [Directive.linkLib "crypto"],
      copyAttempted := false, panic := none }
  | .windows =>
    match env.openssl_root_dir with
    | none =>
      { directives := ds, copyAttempted := false,
        panic := some "called Result::unwrap on an Err value" }
    | some o =>
      let ds := ds ++
        [Directive.searchPath (o ++ "/lib"), Directive.linkLib "libeay32",
         Directive.linkLib "ssleay32"]
      match env.sgx_sdk_path with
      | none =>
        { directives := ds, copyAttempted := false,
          panic := some "called Result::unwrap on an Err value" }
      | some s =>
        let ds := ds ++ [Directive.searchPath (s ++ "/bin/x64/Release")]
        if env.use_enclave.isSome then
          if w.copyOk then
            { directives := ds ++
                [Directive.linkLib "sgx_urts_sim",
                 Directive.linkLib "sgx_uae_service_sim",
                 Directive.linkLib "sgx_uprotected_fs"],
              copyAttempted := true, panic := none }
          else
            { directives := ds, copyAttempted := true,
              panic := some "Failed to copy enclave to output directory" }
        else
          { directives := ds, copyAttempted := false, panic := none }

/-- The tail of `main` after the HSM build: the link-plan emission, with
its possible copy step and panics folded back into the run trace. -/
def postStage (os : HostOS) (dbg : Bool) (env : Env) (w : World)
    (tr : List Step) : Run :=
  let r := linkEmit os dbg env w w.hsmOut
  let tr := if r.copyAttempted then tr ++ [Step.copyEnclave] else tr
  (tr, r.panic)

/-- `main` (build.rs lines 133-307) as a sequential run: submodule
fetch, shared-utilities build, micro-TPM build, the optional enclave
block, the HSM build, then the link-plan emission (whose panics and copy
step are the only remaining side effects we track). -/
def mainRun (os : HostOS) (dbg : Bool) (env : Env) (w : World) : Run :=
  seq (fetchStage env w [])
    (fun tr => seq (configStage (sharedUtilConfig os env) tr)
    (fun tr => seq (stepBuild w c_shared_repo tr)
    (fun tr => seq (configStage (utpmConfig os env) tr)
    (fun tr => seq (stepBuild w utpm_repo tr)
    (fun tr => seq (enclaveStage os env w tr)
    (fun tr => seq (configStage (hsmConfig os dbg env w.taDevKit) tr)
    (fun tr => seq (stepBuild w hsm_repo tr)
    (fun tr => postStage os dbg env w tr))))))))

/-! ## Claim C9: the Build-Mode Resolver -/

/-- C9 (confirmed): the Build-Mode Resolver is a total, side-effect-free
mapping: for every input configuration, debug build intent appends
`BUILD_SHARED=OFF` (static artifact) and release intent appends
`BUILD_SHARED=ON` (shared artifact), and nothing else of the
configuration is touched. -/
theorem C9_build_mode_total : ∀ (dbg : Bool) (c : Config),
    (set_build_shared dbg c).defines =
      c.defines ++ [("BUILD_SHARED", if dbg then "OFF" else "ON")] ∧
    (set_build_shared dbg c).srcDir = c.srcDir ∧
    (set_build_shared dbg c).cflags = c.cflags ∧
    (set_build_shared dbg c).cxxflags = c.cxxflags ∧
    (set_build_shared dbg c).buildArgs = c.buildArgs ∧
    (set_build_shared dbg c).profileName = c.profileName := by
  intro dbg c
  cases dbg <;> simp [set_build_shared, Config.define]

/-! ## Claim C8: the Windows branch of the Platform Define Resolver -/

/-- C8 (confirmed): on Windows-like hosts the Platform Define Resolver
takes the emulator choice from the explicit `USE_EMULATOR` override when
set, and otherwise defaults it from the build profile (`OFF` for
release, `ON` for anything else); `use_cppunittest` is set to `OFF` in
every successful case. -/
theorem C8_windows_platform :
    (∀ (env : Env) (v : String) (c : Config), env.use_emulator = some v →
      (set_platform_defines HostOS.windows env c).map Config.defines =
        Except.ok (c.defines ++ [(USE_EMULATOR, v), ("use_cppunittest", "OFF")])) ∧
    (∀ (env : Env) (p : String) (c : Config), env.use_emulator = none →
      env.profile = some p →
      (set_platform_defines HostOS.windows env c).map Config.defines =
        Except.ok (c.defines ++
          [(USE_EMULATOR, if lowerString p = "release" then "OFF" else "ON"),
           ("use_cppunittest", "OFF")])) := by
  constructor
  · intro env v c h
    simp [set_platform_defines, h, Except.map, Config.define, Config.cflag,
      Config.cxxflag, Config.buildArg]
  · intro env p c h hp
    simp [set_platform_defines, h, hp, Except.map, Config.define, Config.cflag,
      Config.cxxflag, Config.buildArg]

/-- Closed witness for `C8_windows_platform`: override `OFF` wins, and
without an override a `debug` profile defaults the emulator to `ON`. -/
theorem C8_windows_platform_witness :
    ((set_platform_defines HostOS.windows { use_emulator := some "OFF" }
        (Config.new "x")).map Config.defines =
      Except.ok ((Config.new "x").defines ++
        [(USE_EMULATOR, "OFF"), ("use_cppunittest", "OFF")])) ∧
    ((set_platform_defines HostOS.windows { profile := some "debug" }
        (Config.new "x")).map Config.defines =
      Except.ok ((Config.new "x").defines ++
        [(USE_EMULATOR, if lowerString "debug" = "release" then "OFF" else "ON"),
         ("use_cppunittest", "OFF")])) :=
  ⟨C8_windows_platform.1 { use_emulator := some "OFF" } "OFF" (Config.new "x") rfl,
   C8_windows_platform.2 { profile := some "debug" } "debug" (Config.new "x") rfl rfl⟩

/-! ## Claim C6: the valgrind gate of the Platform Define Resolver -/

/-- A Windows-like environment with an explicit emulator override (so
that the windows branch succeeds without consulting the profile). -/
def envC6w : Env := { use_emulator := some "ON" }

/-- C6 counterexample: the claim says that in every non-qualifying
host/target/flag combination the valgrind define is `"OFF"`; but on a
Windows-like host the Platform Define Resolver emits no `run_valgrind`
define at all (lookup yields `none`, not `"OFF"`). -/
theorem C6_counterexample :
    (set_platform_defines HostOS.windows envC6w (Config.new "x")).map
      (fun c => c.defines.lookup "run_valgrind") = Except.ok none := by
  rfl

/-- C6 as amended: on POSIX-like hosts the valgrind define is `"ON"`
exactly when the target triple starts with `x86_64` and `RUN_VALGRIND`
is present, and `"OFF"` in every other POSIX-like case, with the
emulator define forced `"OFF"` and the sysroot emitted as
`CMAKE_SYSROOT` when its override is present; on Windows-like hosts the
resolver emits no valgrind define at all. -/
theorem C6_amended :
    (∀ (env : Env) (t : String), env.target = some t →
      (startsWithStr t "x86_64" = true ∧ env.run_valgrind_set = true →
        (set_platform_defines HostOS.unix env (Config.new "")).map
          (fun c => c.defines.lookup "run_valgrind") = Except.ok (some "ON")) ∧
      (¬(startsWithStr t "x86_64" = true ∧ env.run_valgrind_set = true) →
        (set_platform_defines HostOS.unix env (Config.new "")).map
          (fun c => c.defines.lookup "run_valgrind") = Except.ok (some "OFF")) ∧
      ((set_platform_defines HostOS.unix env (Config.new "")).map
        (fun c => c.defines.lookup USE_EMULATOR) = Except.ok (some "OFF")) ∧
      (∀ s, env.sysroot = some s →
        (set_platform_defines HostOS.unix env (Config.new "")).map
          (fun c => c.defines.lookup "CMAKE_SYSROOT") = Except.ok (some s))) ∧
    (∀ (env : Env), env.use_emulator.isSome = true ∨ env.profile.isSome = true →
      (set_platform_defines HostOS.windows env (Config.new "")).map
        (fun c => c.defines.lookup "run_valgrind") = Except.ok none) := by
  constructor
  · intro env t ht
    refine ⟨?_, ?_, ?_, ?_⟩
    · intro hcond
      have hb : (startsWithStr t "x86_64" && env.run_valgrind_set) = true := by
        simp [hcond.1, hcond.2]
      cases hs : env.sysroot <;>
        simp [set_platform_defines, ht, hs, hb, Except.map, Config.define,
          Config.new, List.lookup, USE_EMULATOR]
    · intro hcond
      have hb : (startsWithStr t "x86_64" && env.run_valgrind_set) = false := by
        cases h1 : startsWithStr t "x86_64" <;>
          cases h2 : env.run_valgrind_set <;> simp_all
      cases hs : env.sysroot <;>
        simp [set_platform_defines, ht, hs, hb, Except.map, Config.define,
          Config.new, List.lookup, USE_EMULATOR]
    · cases hs : env.sysroot <;>
        simp [set_platform_defines, ht, hs, Except.map, Config.define,
          Config.new, List.lookup, USE_EMULATOR]
    · intro s hs
      simp [set_platform_defines, ht, hs, Except.map, Config.define,
        Config.new, List.lookup, USE_EMULATOR]
  · intro env h
    cases hv : env.use_emulator with
    | some v =>
      simp [set_platform_defines, hv, Except.map, Config.define, Config.cflag,
        Config.cxxflag, Config.buildArg, Config.new, List.lookup, USE_EMULATOR]
    | none =>
      cases hp : env.profile with
      | some p =>
        simp [set_platform_defines, hv, hp, Except.map, Config.define,
          Config.cflag, Config.cxxflag, Config.buildArg, Config.new,
          List.lookup, USE_EMULATOR]
      | none =>
        rcases h with h | h <;> simp [hv, hp] at h

/-- A POSIX-like environment with an `x86_64` target and the valgrind
flag present. -/
def envC6u : Env :=
  { target := some "x86_64-unknown-linux-gnu", run_valgrind_set := true }

/-- Closed witness for `C6_amended`: an `x86_64` POSIX target with the
valgrind flag present yields `run_valgrind=ON`, and a Windows host on
the default profile-derived branch (`USE_EMULATOR` absent, `PROFILE`
set) emits no valgrind define. -/
theorem C6_amended_witness :
    ((set_platform_defines HostOS.unix envC6u (Config.new "")).map
      (fun c => c.defines.lookup "run_valgrind") = Except.ok (some "ON")) ∧
    ((set_platform_defines HostOS.windows { profile := some "debug" }
        (Config.new "")).map (fun c => c.defines.lookup "run_valgrind") =
      Except.ok none) :=
  ⟨(C6_amended.1 envC6u "x86_64-unknown-linux-gnu" rfl).1 ⟨by decide, rfl⟩,
   C6_amended.2 { profile := some "debug" } (Or.inr rfl)⟩

/-! ## Claim C5: the Enclave Option Resolver -/

/-- C5 (confirmed): the Enclave Option Resolver normalizes the TEE
selection case-insensitively and accepts exactly the pairings
{"intel sgx","sgx"}×Windows (emitting `OE_TEE=SGX`, `use_enclave=ON`,
plus `OE_USE_SIMULATION=ON` iff simulation is requested) and
{"arm trustzone","tz"}×POSIX without simulation (emitting `OE_TEE=TZ`,
the `TA_DEV_KIT_DIR` path and `use_enclave=ON`); every other
selection/host pairing — and simulation with TrustZone — is a fatal
error with a descriptive message, and no requested TEE emits nothing. -/
theorem C5_enclave_resolver :
    (∀ (env : Env) (ta : Option String) (c : Config), env.use_enclave = none →
      set_enclave_options HostOS.windows env ta c = Except.ok c ∧
      set_enclave_options HostOS.unix env ta c = Except.ok c) ∧
    (∀ (env : Env) (raw : String) (ta : Option String) (c : Config),
      env.use_enclave = some raw →
      lowerString raw = "intel sgx" ∨ lowerString raw = "sgx" →
      (set_enclave_options HostOS.windows env ta c).map Config.defines =
        Except.ok (c.defines ++ [("OE_TEE", "SGX"), ("use_enclave", "ON")] ++
          (if env.use_simulation then [("OE_USE_SIMULATION", "ON")] else []))) ∧
    (∀ (env : Env) (raw : String) (ta : Option String) (c : Config),
      env.use_enclave = some raw →
      ¬(lowerString raw = "intel sgx" ∨ lowerString raw = "sgx") →
      set_enclave_options HostOS.windows env ta c = Except.error
        "Building the HSM enclave on Windows is currently only supported for Intel SGX") ∧
    (∀ (env : Env) (raw p : String) (c : Config),
      env.use_enclave = some raw →
      lowerString raw = "arm trustzone" ∨ lowerString raw = "tz" →
      env.use_simulation = false →
      (set_enclave_options HostOS.unix env (some p) c).map Config.defines =
        Except.ok (c.defines ++
          [("OE_TEE", "TZ"), ("TA_DEV_KIT_DIR", p), ("use_enclave", "ON")])) ∧
    (∀ (env : Env) (raw : String) (ta : Option String) (c : Config),
      env.use_enclave = some raw →
      lowerString raw = "arm trustzone" ∨ lowerString raw = "tz" →
      env.use_simulation = true →
      set_enclave_options HostOS.unix env ta c = Except.error
        "Simulation builds are not yet supported for ARM TrustZone on Linux") ∧
    (∀ (env : Env) (raw : String) (ta : Option String) (c : Config),
      env.use_enclave = some raw →
      ¬(lowerString raw = "arm trustzone" ∨ lowerString raw = "tz") →
      set_enclave_options HostOS.unix env ta c = Except.error
        "Building the HSM enclave on Linux is currently only supported for ARM TrustZone") := by
  refine ⟨?_, ?_, ?_, ?_, ?_, ?_⟩
  · intro env ta c h
    constructor <;> simp [set_enclave_options, h]
  · intro env raw ta c h h2
    simp only [set_enclave_options, h]
    rw [if_pos h2]
    cases hsim : env.use_simulation <;>
      simp [hsim, Except.map, Config.define, List.append_assoc]
  · intro env raw ta c h h2
    simp only [set_enclave_options, h]
    rw [if_neg h2]
  · intro env raw p c h h2 hsim
    simp only [set_enclave_options, h]
    rw [if_pos h2]
    simp [hsim, Except.map, Config.define, List.append_assoc]
  · intro env raw ta c h h2 hsim
    simp only [set_enclave_options, h]
    rw [if_pos h2]
    simp [hsim]
  · intro env raw ta c h h2
    simp only [set_enclave_options, h]
    rw [if_neg h2]

/-- Closed witness for `C5_enclave_resolver`: `"Intel SGX"` with
simulation requested on a Windows-like host resolves to the SGX define
set including the simulation define. -/
theorem C5_enclave_resolver_witness :
    (set_enclave_options HostOS.windows
      { use_enclave := some "Intel SGX", use_simulation := true } none
      (Config.new "x")).map Config.defines =
      Except.ok ((Config.new "x").defines ++
        [("OE_TEE", "SGX"), ("use_enclave", "ON")] ++
        (if ({ use_enclave := some "Intel SGX", use_simulation := true } : Env).use_simulation
         then [("OE_USE_SIMULATION", "ON")] else [])) :=
  C5_enclave_resolver.2.1 { use_enclave := some "Intel SGX", use_simulation := true }
    "Intel SGX" none (Config.new "x") rfl (Or.inl (by decide))

/-! ## Claim C2: define accumulation across resolver stages -/

/-- Environment for the C2 counterexample: POSIX host, `x86_64` target,
valgrind flag present, so that the Platform Define Resolver sets
`run_valgrind=ON`. -/
def envC2u : Env :=
  { target := some "x86_64-unknown-linux-gnu", run_valgrind_set := true }

/-- C2 counterexample: constructing the shared-utilities configuration
succeeds (`Except.ok`, no construction error) even though the driver
re-defines `run_valgrind` — already set to `"ON"` by the Platform
Define Resolver — to `"OFF"`: the accumulated define set simply carries
both bindings, refuting the claim that conflicting redefinition of an
already-set key is a construction error. -/
theorem C2_counterexample :
    (sharedUtilConfig HostOS.unix envC2u).map
        (fun c => (c.defines.filter (fun d => d.1 == "run_valgrind")).map Prod.snd) =
      Except.ok ["ON", "OFF"] := by
  rfl

/-- C2 as amended: redefinition of an already-set key is a silent
append, not a construction error: on every POSIX-like run the driver
appends a second `run_valgrind` binding `"OFF"` after the binding the
Platform Define Resolver set, and construction succeeds. -/
theorem C2_amended : ∀ (env : Env) (t : String), env.target = some t →
    (sharedUtilConfig HostOS.unix env).map
        (fun c => (c.defines.filter (fun d => d.1 == "run_valgrind")).map Prod.snd) =
      Except.ok
        [if startsWithStr t "x86_64" && env.run_valgrind_set then "ON" else "OFF",
         "OFF"] := by
  intro env t ht
  cases hs : env.sysroot <;>
    cases hb : (startsWithStr t "x86_64" && env.run_valgrind_set) <;>
      simp only [sharedUtilConfig, set_platform_defines, ht, hs, hb] <;> rfl

/-- Closed witness for `C2_amended` at the counterexample environment. -/
theorem C2_amended_witness :
    (sharedUtilConfig HostOS.unix envC2u).map
        (fun c => (c.defines.filter (fun d => d.1 == "run_valgrind")).map Prod.snd) =
      Except.ok
        [if startsWithStr "x86_64-unknown-linux-gnu" "x86_64" && envC2u.run_valgrind_set
         then "ON" else "OFF", "OFF"] :=
  C2_amended envC2u "x86_64-unknown-linux-gnu" rfl

/-! ## Claim C10: unconditional Windows environment requirements -/

/-- The all-defaults world (everything present and succeeding). -/
def wDefault : World := {}

/-- C10 (confirmed): on Windows-like hosts the link-plan emission reads
`OPENSSL_ROOT_DIR` and `SGXSDKInstallPath` unconditionally: it panics
when either is absent — even with no enclave requested — and when both
are present it emits their derived directories as link search paths. -/
theorem C10_windows_link_env :
    (∀ (dbg : Bool) (env : Env) (w : World) (out : String),
      env.openssl_root_dir = none →
      (linkEmit HostOS.windows dbg env w out).panic =
        some "called Result::unwrap on an Err value") ∧
    (∀ (dbg : Bool) (env : Env) (w : World) (out o : String),
      env.openssl_root_dir = some o → env.sgx_sdk_path = none →
      (linkEmit HostOS.windows dbg env w out).panic =
        some "called Result::unwrap on an Err value") ∧
    (∀ (dbg : Bool) (env : Env) (w : World) (out o s : String),
      env.openssl_root_dir = some o → env.sgx_sdk_path = some s →
      env.use_enclave = none →
      (linkEmit HostOS.windows dbg env w out).panic = none ∧
      Directive.searchPath (o ++ "/lib") ∈
        (linkEmit HostOS.windows dbg env w out).directives ∧
      Directive.searchPath (s ++ "/bin/x64/Release") ∈
        (linkEmit HostOS.windows dbg env w out).directives) := by
  refine ⟨?_, ?_, ?_⟩
  · intro dbg env w out h
    simp [linkEmit, h]
  · intro dbg env w out o h hs
    simp [linkEmit, h, hs]
  · intro dbg env w out o s h hs henc
    refine ⟨?_, ?_, ?_⟩ <;> simp [linkEmit, h, hs, henc]

/-- Closed witness for `C10_windows_link_env`: with both variables
present and no enclave requested, both derived search paths are
emitted and no panic occurs. -/
theorem C10_windows_link_env_witness :
    (linkEmit HostOS.windows false
      { openssl_root_dir := some "C:/ssl", sgx_sdk_path := some "C:/sgx" }
      wDefault "out").panic = none ∧
    Directive.searchPath ("C:/ssl" ++ "/lib") ∈
      (linkEmit HostOS.windows false
        { openssl_root_dir := some "C:/ssl", sgx_sdk_path := some "C:/sgx" }
        wDefault "out").directives ∧
    Directive.searchPath ("C:/sgx" ++ "/bin/x64/Release") ∈
      (linkEmit HostOS.windows false
        { openssl_root_dir := some "C:/ssl", sgx_sdk_path := some "C:/sgx" }
        wDefault "out").directives :=
  C10_windows_link_env.2.2 false
    { openssl_root_dir := some "C:/ssl", sgx_sdk_path := some "C:/sgx" }
    wDefault "out" "C:/ssl" "C:/sgx" rfl rfl rfl

/-! ## Claim C3: the signed-enclave copy step -/

/-- Windows-like environment with an enclave requested but simulation
NOT requested (and everything the windows branches need present). -/
def envC3w : Env :=
  { profile := some "debug", use_enclave := some "sgx",
    openssl_root_dir := some "C:/ssl", sgx_sdk_path := some "C:/sgx" }

/-- C3 counterexample: on a Windows-like host with an enclave requested
and simulation NOT requested, the full run still performs the
signed-enclave copy step — refuting "performed exactly when
enclave+simulation is active". -/
theorem C3_counterexample :
    envC3w.use_simulation = false ∧
    (mainRun HostOS.windows true envC3w wDefault).1 =
      [Step.build c_shared_repo, Step.build utpm_repo,
       Step.build oe_new_platforms, Step.build hsm_repo, Step.copyEnclave] ∧
    (mainRun HostOS.windows true envC3w wDefault).2 = none := by
  refine ⟨rfl, ?_, ?_⟩ <;> rfl

/-- C3 as amended: the signed-enclave copy step is performed exactly
when an enclave is active on a Windows-like host (whether or not
simulation is requested; the two required environment variables being
present), never on POSIX-like hosts, and a failure of the copy is fatal
with the message `Failed to copy enclave to output directory`. -/
theorem C3_amended :
    (∀ (dbg : Bool) (env : Env) (w : World) (out : String),
      (linkEmit HostOS.unix dbg env w out).copyAttempted = false) ∧
    (∀ (dbg : Bool) (env : Env) (w : World) (out o s : String),
      env.openssl_root_dir = some o → env.sgx_sdk_path = some s →
      ((linkEmit HostOS.windows dbg env w out).copyAttempted = true ↔
        env.use_enclave.isSome = true)) ∧
    (∀ (dbg : Bool) (env : Env) (w : World) (out o s : String),
      env.openssl_root_dir = some o → env.sgx_sdk_path = some s →
      env.use_enclave.isSome = true → w.copyOk = false →
      (linkEmit HostOS.windows dbg env w out).panic =
        some "Failed to copy enclave to output directory") ∧
    (∀ (dbg : Bool) (env : Env) (w : World) (out o s : String),
      env.openssl_root_dir = some o → env.sgx_sdk_path = some s →
      env.use_enclave.isSome = true → w.copyOk = true →
      (linkEmit HostOS.windows dbg env w out).panic = none) := by
  refine ⟨?_, ?_, ?_, ?_⟩
  · intro dbg env w out
    rfl
  · intro dbg env w out o s ho hs
    cases he : env.use_enclave.isSome <;> cases hc : w.copyOk <;>
      simp [linkEmit, ho, hs, he, hc]
  · intro dbg env w out o s ho hs he hc
    simp [linkEmit, ho, hs, he, hc]
  · intro dbg env w out o s ho hs he hc
    simp [linkEmit, ho, hs, he, hc]

/-- World in which the enclave-image copy fails. -/
def wNoCopy : World := { copyOk := false }

/-- Closed witness for `C3_amended`: with an enclave active on Windows
the copy is attempted, and a failing copy is fatal with the descriptive
message. -/
theorem C3_amended_witness :
    ((linkEmit HostOS.windows true envC3w wDefault "out").copyAttempted = true ↔
      envC3w.use_enclave.isSome = true) ∧
    (linkEmit HostOS.windows true envC3w wNoCopy "out").panic =
      some "Failed to copy enclave to output directory" :=
  ⟨C3_amended.2.1 true envC3w wDefault "out" "C:/ssl" "C:/sgx" rfl rfl,
   C3_amended.2.2.1 true envC3w wNoCopy "out" "C:/ssl" "C:/sgx" rfl rfl rfl rfl⟩

/-! ## Claim C7: the Link Plan order -/

/-- The Link Plan order exactly as claim C7 words it (a second
definition written from the claim, to be compared against `linkEmit`):
the three HSM search paths, the HSM library, the static-linkage
dependency libraries under debug, the TEE host-runtime libraries when an
enclave is enabled (plus `teec` on POSIX), then the host-OS system
libraries (OpenSSL search path and the two legacy SSL libraries on
Windows, `crypto` on POSIX). -/
def claimedLinkPlan (os : HostOS) (dbg enclave : Bool) (out o : String) :
    List Directive :=
  [Directive.searchPath out, Directive.searchPath (out ++ "/lib"),
   Directive.searchPath (out ++ "/lib64"), Directive.linkLib "iothsm"] ++
  (if dbg then [Directive.linkLib "aziotsharedutil", Directive.linkLib "utpm"]
   else []) ++
  (if enclave then
    [Directive.linkLib "oesocket_host", Directive.linkLib "oestdio_host",
     Directive.linkLib "oehost"] ++
    (if os = HostOS.unix then [Directive.linkLib "teec"] else [])
   else []) ++
  (match os with
   | .windows =>
     [Directive.searchPath (o ++ "/lib"), Directive.linkLib "libeay32",
      Directive.linkLib "ssleay32"]
   | .unix => [Directive.linkLib "crypto"])

/-- Claim C7's plan amended by what the source additionally emits on
Windows-like hosts: the SGX-SDK search path (always), followed — when
an enclave is enabled — by the three SGX simulation libraries. -/
def amendedLinkPlan (os : HostOS) (dbg enclave : Bool) (out o s : String) :
    List Directive :=
  claimedLinkPlan os dbg enclave out o ++
  (match os with
   | .windows =>
     [Directive.searchPath (s ++ "/bin/x64/Release")] ++
     (if enclave then
       [Directive.linkLib "sgx_urts_sim", Directive.linkLib "sgx_uae_service_sim",
        Directive.linkLib "sgx_uprotected_fs"]
      else [])
   | .unix => [])

/-- Windows-like environment for the C7 counterexample: no enclave, both
required variables present. -/
def envC7w : Env := { openssl_root_dir := some "O", sgx_sdk_path := some "S" }

/-- C7 counterexample: on a Windows-like host the emitted plan is NOT
the sequence the claim describes — the source additionally emits the
SGX-SDK search path after the system SSL libraries. -/
theorem C7_counterexample :
    (linkEmit HostOS.windows false envC7w wDefault "out").directives ≠
      claimedLinkPlan HostOS.windows false false "out" "O" := by
  decide

/-- C7 as amended: the emitted Link Plan equals the claimed order plus,
on Windows-like hosts, the trailing SGX-SDK search path and — when an
enclave is enabled — the three SGX simulation library names. -/
theorem C7_amended : ∀ (os : HostOS) (dbg : Bool) (env : Env) (w : World)
    (out o s : String),
    (os = HostOS.windows →
      env.openssl_root_dir = some o ∧ env.sgx_sdk_path = some s ∧
      (env.use_enclave.isSome = true → w.copyOk = true)) →
    (linkEmit os dbg env w out).directives =
      amendedLinkPlan os dbg env.use_enclave.isSome out o s := by
  intro os dbg env w out o s h
  cases os with
  | unix =>
    simp [linkEmit, amendedLinkPlan, claimedLinkPlan, List.append_assoc]
  | windows =>
    obtain ⟨ho, hsx, hcopy⟩ := h rfl
    cases he : env.use_enclave.isSome with
    | false =>
      simp [linkEmit, amendedLinkPlan, claimedLinkPlan, ho, hsx, he,
        List.append_assoc]
    | true =>
      simp [linkEmit, amendedLinkPlan, claimedLinkPlan, ho, hsx, he, hcopy he,
        List.append_assoc]

/-- Windows-like environment with an enclave for the C7 witness. -/
def envC7e : Env :=
  { use_enclave := some "sgx", openssl_root_dir := some "O",
    sgx_sdk_path := some "S" }

/-- Closed witness for `C7_amended` on a Windows-like enclave-enabled
debug configuration. -/
theorem C7_amended_witness :
    (linkEmit HostOS.windows true envC7e wDefault "out").directives =
      amendedLinkPlan HostOS.windows true envC7e.use_enclave.isSome "out" "O" "S" :=
  C7_amended HostOS.windows true envC7e wDefault "out" "O" "S"
    (fun _ => ⟨rfl, rfl, fun _ => rfl⟩)

/-! ## Claim C4: fatality of a failed dependency fetch -/

/-- World for the C4 failing input: the shared-utilities `.git` marker
is missing (so the fetch runs), the `git` process spawns, but it exits
with a non-zero status. -/
def wC4 : World := { cSharedGit := false, fetchExitOk := false }

/-- POSIX environment with no enclave for the C4 failing input. -/
def envC4 : Env := { target := some "x86_64-unknown-linux-gnu" }

/-- C4, evaluated at the failing input: the fetch is invoked and its
`git` process exits with a non-zero status (`wC4.fetchExitOk = false`),
yet the run proceeds to build every dependency and terminates without
any fatal error — because build.rs discards the exit status
(`let _ = Command::new("git")....status().expect(...)` panics only when
the process cannot be spawned).  This contradicts the claim (and the
spec's stated intent, documented by the very `expect` message
"submodule update failed") that an incomplete fetch terminates the
process before any build step runs. -/
theorem C4_evidence :
    wC4.fetchExitOk = false ∧
    (mainRun HostOS.unix true envC4 wC4).1 =
      [Step.fetch, Step.build c_shared_repo, Step.build utpm_repo,
       Step.build hsm_repo] ∧
    (mainRun HostOS.unix true envC4 wC4).2 = none := by
  refine ⟨rfl, ?_, ?_⟩ <;> rfl

/-! ## Claim C1: when the invalid-pairing error is raised -/

/-- POSIX environment requesting TEE "sgx" — an invalid pairing. -/
def envC1u : Env :=
  { target := some "x86_64-unknown-linux-gnu", use_enclave := some "sgx" }

/-- C1 counterexample: with TEE `"sgx"` requested on a POSIX-like host
(end-to-end scenario 3), the run raises the fatal configuration error
only AFTER the shared-utilities and micro-TPM native builds have been
invoked — refuting "no dependency build ... is started first". -/
theorem C1_counterexample :
    (mainRun HostOS.unix true envC1u wDefault).1 =
      [Step.build c_shared_repo, Step.build utpm_repo, Step.aptInstall,
       Step.pipInstall] ∧
    (mainRun HostOS.unix true envC1u wDefault).2 =
      some "Building the HSM enclave on Linux is currently only supported for ARM TrustZone" := by
  refine ⟨?_, ?_⟩ <;> rfl

/-- An invalid TEE/host-OS/simulation pairing in the sense of claim C1:
a TEE is requested and either its normalized selection is not the one
supported on that host, or (on POSIX hosts) simulation is requested
together with TrustZone. -/
def invalidPairing (os : HostOS) (env : Env) : Prop :=
  ∃ raw, env.use_enclave = some raw ∧
    (match os with
     | HostOS.windows =>
       ¬(lowerString raw = "intel sgx" ∨ lowerString raw = "sgx")
     | HostOS.unix =>
       ¬(lowerString raw = "arm trustzone" ∨ lowerString raw = "tz") ∨
         env.use_simulation = true)

theorem set_enclave_options_invalid {os : HostOS} {env : Env}
    (h : invalidPairing os env) (ta : Option String) (c : Config) :
    ∃ m, set_enclave_options os env ta c = Except.error m := by
  obtain ⟨raw, hraw, hbad⟩ := h
  cases os with
  | windows =>
    refine ⟨"Building the HSM enclave on Windows is currently only supported for Intel SGX", ?_⟩
    simp only [set_enclave_options, hraw]
    rw [if_neg hbad]
  | unix =>
    rcases hbad with hbad | hsim
    · refine ⟨"Building the HSM enclave on Linux is currently only supported for ARM TrustZone", ?_⟩
      simp only [set_enclave_options, hraw]
      rw [if_neg hbad]
    · by_cases htz : lowerString raw = "arm trustzone" ∨ lowerString raw = "tz"
      · refine ⟨"Simulation builds are not yet supported for ARM TrustZone on Linux", ?_⟩
        simp only [set_enclave_options, hraw]
        rw [if_pos htz, hsim]
        simp
      · refine ⟨"Building the HSM enclave on Linux is currently only supported for ARM TrustZone", ?_⟩
        simp only [set_enclave_options, hraw]
        rw [if_neg htz]

theorem oeConfig_invalid {os : HostOS} {env : Env}
    (h : invalidPairing os env) (ta : Option String) :
    ∃ m, oeConfig os env ta = Except.error m := by
  obtain ⟨m, hm⟩ := set_enclave_options_invalid h ta (Config.new oe_new_platforms)
  exact ⟨m, by simp only [oeConfig, hm]⟩

/-- C1 as amended: for every invalid TEE/host-OS/simulation pairing, the
run raises the fatal UnsupportedConfiguration error before the TEE-SDK
build and before the HSM build are invoked — but AFTER the
shared-utilities and micro-TPM dependency builds (which, when the fetch
and those builds themselves succeed, have already run). -/
theorem C1_amended : ∀ (os : HostOS) (dbg : Bool) (env : Env) (w : World),
    invalidPairing os env → w.fetchSpawns = true →
    (∃ c, sharedUtilConfig os env = Except.ok c) →
    (∃ c, utpmConfig os env = Except.ok c) →
    w.buildOk c_shared_repo = true → w.buildOk utpm_repo = true →
    w.aptOk = true → w.pipOk = true →
    ∃ pre m, mainRun os dbg env w = (pre, some m) ∧
      Step.build c_shared_repo ∈ pre ∧ Step.build utpm_repo ∈ pre ∧
      Step.build oe_new_platforms ∉ pre ∧ Step.build hsm_repo ∉ pre := by
  intro os dbg env w hinv hf hsc huc hb1 hb2 ha hp
  obtain ⟨c1, hc1⟩ := hsc
  obtain ⟨c2, hc2⟩ := huc
  obtain ⟨m, hoe⟩ := oeConfig_invalid hinv w.taDevKit
  have henc : env.use_enclave.isSome = true := by
    obtain ⟨raw, hraw, _⟩ := hinv
    simp [hraw]
  cases os with
  | unix =>
    by_cases hnf : ((w.cSharedGit = false ∨ w.utpmGit = false) ∨ w.oeGit = false)
    · refine ⟨[Step.fetch, Step.build c_shared_repo, Step.build utpm_repo,
        Step.aptInstall, Step.pipInstall], m, ?_, by decide, by decide,
        by decide, by decide⟩
      simp [mainRun, fetchStage, hnf, hf, seq, configStage, hc1, hc2,
        stepBuild, hb1, hb2, enclaveStage, henc, ha, hp, hoe]
    · refine ⟨[Step.build c_shared_repo, Step.build utpm_repo,
        Step.aptInstall, Step.pipInstall], m, ?_, by decide, by decide,
        by decide, by decide⟩
      simp [mainRun, fetchStage, hnf, hf, seq, configStage, hc1, hc2,
        stepBuild, hb1, hb2, enclaveStage, henc, ha, hp, hoe]
  | windows =>
    by_cases hnf : ((w.cSharedGit = false ∨ w.utpmGit = false) ∨ w.oeGit = false)
    · refine ⟨[Step.fetch, Step.build c_shared_repo, Step.build utpm_repo],
        m, ?_, by decide, by decide, by decide, by decide⟩
      simp [mainRun, fetchStage, hnf, hf, seq, configStage, hc1, hc2,
        stepBuild, hb1, hb2, enclaveStage, henc, hoe]
    · refine ⟨[Step.build c_shared_repo, Step.build utpm_repo], m, ?_,
        by decide, by decide, by decide, by decide⟩
      simp [mainRun, fetchStage, hnf, hf, seq, configStage, hc1, hc2,
        stepBuild, hb1, hb2, enclaveStage, henc, hoe]

/-- Closed witness for `C1_amended`: the POSIX host with TEE `"sgx"`
requested. -/
theorem C1_amended_witness :
    ∃ pre m, mainRun HostOS.unix true envC1u wDefault = (pre, some m) ∧
      Step.build c_shared_repo ∈ pre ∧ Step.build utpm_repo ∈ pre ∧
      Step.build oe_new_platforms ∉ pre ∧ Step.build hsm_repo ∉ pre :=
  C1_amended HostOS.unix true envC1u wDefault
    ⟨"sgx", rfl, by decide⟩ rfl ⟨_, rfl⟩ ⟨_, rfl⟩ rfl rfl rfl rfl

end HsmSys
